import Mathlib

/-!
Verification of the rclone_chunk repository: a Python utility that runs
time-boxed chunks of an rclone copy job.  The development shallowly embeds
the data model and operations of the three source files:

  - src/modules/config_handler.py  (TOML loading, one-level merge, validation)
  - src/modules/rclone_exec.py     (command construction, child process run,
                                    exit-code classification, log upload)
  - src/chunk_rclone.py            (standalone revision of the runner and the
                                    entry point)

Python dictionaries parsed from TOML are embedded as association lists,
pathlib.PurePosixPath is embedded as a parsed root/components pair, and the
nondeterministic environment (filesystem, child process results, clock) is
passed in explicitly.
-/

/-- A TOML value as produced by tomllib / the toml package in the source.
Floats are kept as a literal mantissa and decimal-exponent pair; the code
never computes with them, it only type-checks them. -/
inductive TomlVal where
  | vStr (s : String)
  | vInt (n : Int)
  | vBool (b : Bool)
  | vFloat (mantissa : Int) (exp10 : Nat)
  | vArr (items : List TomlVal)
  | vTable (entries : List (String × TomlVal))

/-- A parsed TOML table: a Python dict embedded as an ordered association
list with unique keys (tomllib guarantees key uniqueness). -/
abbrev Table := List (String × TomlVal)

/-- Dictionary lookup: d.get(k), returning the first binding of k. -/
def lookupKey (t : Table) (k : String) : Option TomlVal :=
  match t with
  | [] => none
  | (k2, v) :: rest => if k2 = k then some v else lookupKey rest k

/-- Dictionary store: d[k] = v.  Replaces the value in place when the key is
present (Python dicts keep the original key position) and appends otherwise. -/
def setKey : Table → String → TomlVal → Table
  | [], k, v => [(k, v)]
  | (k2, v2) :: rest, k, v =>
      if k2 = k then (k, v) :: rest else (k2, v2) :: setKey rest k v

/-- Python dict.update: every binding of u is stored into d in order. -/
def dictUpdate (d : Table) (u : Table) : Table :=
  u.foldl (fun acc kv => setKey acc kv.1 kv.2) d

/-- One iteration of the merge loop in load_effective_config
(src/modules/config_handler.py lines 91-98): if both the control value and
the current effective value for the key are tables, the control sub-keys are
overlaid onto the base table; otherwise the control value replaces the base
value wholesale. -/
def mergeStep (acc : Table) (kv : String × TomlVal) : Table :=
  match kv.2, lookupKey acc kv.1 with
  | .vTable ct, some (.vTable bt) => setKey acc kv.1 (.vTable (dictUpdate bt ct))
  | _, _ => setKey acc kv.1 kv.2

/-- The merge/override loop of load_effective_config: the control table is
folded on top of the base table one top-level key at a time. -/
def mergeConfigs (base control : Table) : Table :=
  control.foldl mergeStep base

/-- Pointwise description of the one-level merge, used to state its
correctness: absent control keys keep the base value, table-on-table is a
per-key overlay, everything else is wholesale replacement. -/
def mergeSpec (cv bv : Option TomlVal) : Option TomlVal :=
  match cv, bv with
  | none, _ => bv
  | some (.vTable ct), some (.vTable bt) => some (.vTable (dictUpdate bt ct))
  | some v, _ => some v

/-- Whether a TOML value is a table (isinstance(v, dict) in the source). -/
def isTomlTable : TomlVal → Bool
  | .vTable _ => true
  | _ => false

/-- Whether a TOML value is an integer at the TOML type level. -/
def isTomlInt : TomlVal → Bool
  | .vInt _ => true
  | _ => false

/-- Separator join of path components: the '/'.join used by PurePosixPath
when rendering, on character lists. -/
def sepJoinL : List (List Char) → List Char
  | [] => []
  | [a] => a
  | a :: b :: r => a ++ '/' :: sepJoinL (b :: r)

/-- Splitting a character list at every '/' (accumulator holds the current
component reversed). -/
def splitSlashAux : List Char → List Char → List (List Char)
  | [], acc => [acc.reverse]
  | c :: rest, acc =>
      if c = '/' then acc.reverse :: splitSlashAux rest [] else splitSlashAux rest (c :: acc)

def splitSlash (cs : List Char) : List (List Char) := splitSlashAux cs []

/-- The root of a POSIX path string, following CPython pathlib: exactly two
leading slashes give the special root "//", one or three-or-more give "/",
anything else is relative. -/
def rootOf (cs : List Char) : List Char :=
  match cs with
  | c1 :: c2 :: c3 :: _ =>
      if c1 = '/' then
        (if c2 = '/' then (if c3 = '/' then ['/'] else ['/', '/']) else ['/'])
      else []
  | [c1, c2] =>
      if c1 = '/' then (if c2 = '/' then ['/', '/'] else ['/']) else []
  | [c1] => if c1 = '/' then ['/'] else []
  | [] => []

/-- A parsed PurePosixPath: a root (empty for relative paths) and the list
of components, with empty and "." components dropped. -/
structure PPath where
  root : List Char
  parts : List (List Char)

/-- pathlib.PurePosixPath(s): parse a path string. -/
def posixParse (s : String) : PPath :=
  { root := rootOf s.data
    parts := (splitSlash s.data).filter (fun c => c ≠ [] && c ≠ ['.']) }

/-- pathlib path division a / b: an absolute right operand replaces the
whole left operand, otherwise the components are concatenated. -/
def posixJoin (a b : PPath) : PPath :=
  if b.root = [] then { root := a.root, parts := a.parts ++ b.parts } else b

/-- The characters of str(p) for a parsed path: root followed by the
separator-joined components, with "." for the empty relative path. -/
def ppathData (p : PPath) : List Char :=
  if p.root = [] then (if p.parts = [] then ['.'] else sepJoinL p.parts)
  else p.root ++ sepJoinL p.parts

/-- str(p) for a parsed PurePosixPath. -/
def posixStr (p : PPath) : String := ⟨ppathData p⟩

/-- The source path string composed by run_rclone_chunk:
f-string remote_name:source_path. -/
def full_source_rclone_path (remote source_path : String) : String :=
  remote ++ ":" ++ source_path

/-- The destination composed by the standalone runner
(src/chunk_rclone.py lines 53-56): an empty parent takes the f-string branch
without any path join, otherwise Path(dest_parent) / backup_folder_name. -/
def full_destination_chunk (remote dest_parent backup : String) : String :=
  if dest_parent = "" then remote ++ ":" ++ backup
  else remote ++ ":" ++ posixStr (posixJoin (posixParse dest_parent) (posixParse backup))

/-- The destination composed by the modular runner
(src/modules/rclone_exec.py lines 52-53): always
Path(dest_parent) / backup_folder_name under the remote prefix. -/
def full_destination_exec (remote dest_parent backup : String) : String :=
  remote ++ ":" ++ posixStr (posixJoin (posixParse dest_parent) (posixParse backup))

/-- Python truthiness (bool(v)) for a TOML value: empty string, zero, false,
zero float, empty list and empty dict are falsy. -/
def pyTruthy : TomlVal → Bool
  | .vStr s => s ≠ ""
  | .vInt n => n ≠ 0
  | .vBool b => b
  | .vFloat m _ => m ≠ 0
  | .vArr l => !l.isEmpty
  | .vTable t => !t.isEmpty

/-- Truthiness of an optional lookup result (None is falsy). -/
def optTruthy : Option TomlVal → Bool
  | some v => pyTruthy v
  | none => false

/-- isinstance(v, int) in Python: genuine integers, and also booleans,
because bool is a subclass of int. -/
def pyIsInt : TomlVal → Bool
  | .vInt _ => true
  | .vBool _ => true
  | _ => false

/-- The numeric value Python arithmetic and comparisons see for a value that
passes pyIsInt: True counts as 1 and False as 0. -/
def pyIntVal : TomlVal → Int
  | .vInt n => n
  | .vBool b => if b then 1 else 0
  | _ => 0

/-- The run_duration_seconds validation shared by
src/modules/config_handler.py lines 140-143 and src/chunk_rclone.py lines
60-63: not (isinstance(x, int)) or x <= 0 aborts with exit 1. -/
def durationOk : Option TomlVal → Bool
  | some v => pyIsInt v && pyIntVal v > 0
  | none => false

/-- effective_config.get(section, curly-empty-dict): a missing section acts
as an empty table; a present non-table value would make the subsequent .get
attribute access raise, which also terminates the process, embedded as
none. -/
def sectionTable : Option TomlVal → Option Table
  | none => some []
  | some (.vTable t) => some t
  | some _ => none

/-- The final settings record built by load_effective_config
(src/modules/config_handler.py lines 110-153).  Fields keep the raw TOML
values the code stores. -/
structure SettingsV where
  run_description : TomlVal
  remote_name : TomlVal
  source_path : TomlVal
  dest_parent : TomlVal
  backup_folder_name : TomlVal
  rclone_flags : TomlVal
  run_duration_raw : TomlVal
  log_dir : TomlVal
  log_file_basename : TomlVal
  upload_logs_to_remote : TomlVal
  remote_log_upload_path : Option TomlVal

/-- Extraction and validation of the effective configuration
(src/modules/config_handler.py lines 108-153).  none embeds sys.exit(1).
The two catch-all match arms are unreachable because the preceding
truthiness guards force the lookups to be some; they also map to none. -/
def validateSettings (effective : Table) : Option SettingsV :=
  match sectionTable (lookupKey effective "rclone_paths") with
  | none => none
  | some rclone_paths =>
    if optTruthy (lookupKey rclone_paths "remote_name") = false then none
    else if (optTruthy (lookupKey rclone_paths "source_path")
        && (lookupKey rclone_paths "destination_parent_path").isSome
        && optTruthy (lookupKey rclone_paths "backup_folder_name")) = false then none
    else
      match lookupKey rclone_paths "remote_name", lookupKey rclone_paths "source_path",
          lookupKey rclone_paths "destination_parent_path",
          lookupKey rclone_paths "backup_folder_name" with
      | some rn, some sp, some dp, some bf =>
        match sectionTable (lookupKey effective "rclone_options") with
        | none => none
        | some rclone_options =>
          match sectionTable (lookupKey effective "chunking") with
          | none => none
          | some chunking =>
            if durationOk (lookupKey chunking "run_duration_seconds") = false then none
            else
              match lookupKey chunking "run_duration_seconds" with
              | none => none
              | some durv =>
                match sectionTable (lookupKey effective "logging") with
                | none => none
                | some logging =>
                  some { run_description :=
                           (lookupKey effective "run_description").getD (.vStr "Chunked Rclone Run")
                       , remote_name := rn
                       , source_path := sp
                       , dest_parent := dp
                       , backup_folder_name := bf
                       , rclone_flags := (lookupKey rclone_options "flags").getD (.vArr [])
                       , run_duration_raw := durv
                       , log_dir := (lookupKey logging "log_dir").getD (.vStr "rclone_chunk_logs_py")
                       , log_file_basename :=
                           (lookupKey logging "log_file_basename").getD (.vStr "rclone_copy_chunk")
                       , upload_logs_to_remote :=
                           (lookupKey logging "upload_logs_to_remote").getD (.vBool false)
                       , remote_log_upload_path := lookupKey logging "remote_log_upload_path" }
      | _, _, _, _ => none

/-- The raw run_duration_seconds value sitting in the effective
configuration, as the validation reads it. -/
def durationValue (effective : Table) : Option TomlVal :=
  match lookupKey effective "chunking" with
  | some (.vTable t) => lookupKey t "run_duration_seconds"
  | _ => none

/-- The typed view of the effective configuration that run_rclone_chunk in
src/modules/rclone_exec.py extracts (lines 34-45). -/
structure RunCfg where
  remote_name : String
  source_path : String
  dest_parent : String
  backup_folder_name : String
  run_duration_seconds : Int
  log_dir : String
  log_file_basename : String
  rclone_flags : List String
  run_description : String
  upload_logs_to_remote : Bool
  remote_log_upload_path : Option String

/-- Outcome of the main child process: exited holds the return code of a
child that finished before the duration bound; timedOut is
subprocess.TimeoutExpired at the bound; notFound is FileNotFoundError for a
missing rclone binary; interrupted is KeyboardInterrupt; raised is any other
exception. -/
inductive ChildResult where
  | exited (code : Int)
  | timedOut
  | notFound
  | interrupted
  | raised
deriving DecidableEq

/-- Outcome of the log-upload child process (a 120 second bound applies). -/
inductive UploadResult where
  | completed (code : Int)
  | timedOut
  | notFound
  | raised
deriving DecidableEq

/-- The nondeterministic environment of one run: whether mkdir of the log
directory succeeds, the formatted local timestamp, and the two child
process outcomes. -/
structure Env where
  mkdirOk : Bool
  timestamp : String
  child : ChildResult
  upload : UploadResult

/-- The post-run classification message printed by run_rclone_chunk
(src/modules/rclone_exec.py lines 121-132): success, timeout, interrupt, or
the WARNING branch for any other recorded code. -/
inductive PostMsg where
  | success
  | timedOut
  | interrupted
  | warning (code : Int)
deriving DecidableEq

/-- What the log-upload section does: a real upload attempt with its
diagnostic, or a warning that the configuration is insufficient, or nothing
because uploads are disabled. -/
inductive UploadAction where
  | uploaded
  | warnedFail (code : Int)
  | warnedTimeout
  | errNotFound
  | warnedRaised
  | warnedMissing
  | skipped
deriving DecidableEq

/-- The exit_code recorded by the try/except around subprocess.run
(src/modules/rclone_exec.py lines 92-118): none is the immediate
return 1 on FileNotFoundError. -/
def classifyChild : ChildResult → Option Int
  | .exited c => some c
  | .timedOut => some 124
  | .interrupted => some 130
  | .raised => some 1
  | .notFound => none

/-- The ExitStatus run_rclone_chunk returns as a function of the child
outcome alone (src/modules/rclone_exec.py lines 183-185): the codes 0, 124
and 130 normalize to 0, anything else passes through. -/
def statusOfChild (r : ChildResult) : Int :=
  match classifyChild r with
  | none => 1
  | some ec => if ec = 0 ∨ ec = 124 ∨ ec = 130 then 0 else ec

/-- Selection of the post-run message from the recorded exit code. -/
def postRunMessage (ec : Int) : PostMsg :=
  if ec = 0 then .success
  else if ec = 124 then .timedOut
  else if ec = 130 then .interrupted
  else .warning ec

/-- The log-upload section (src/modules/rclone_exec.py lines 137-175):
attempted only when upload_logs_to_remote is truthy and both
remote_log_upload_path and remote_name are truthy; otherwise a warning, or
nothing at all when uploads are disabled.  Returns (attempted, action). -/
def uploadPhase (cfg : RunCfg) (ur : UploadResult) : Bool × UploadAction :=
  if cfg.upload_logs_to_remote then
    match cfg.remote_log_upload_path with
    | some p =>
        if p ≠ "" && cfg.remote_name ≠ "" then
          (true,
            match ur with
            | .completed c => if c = 0 then .uploaded else .warnedFail c
            | .timedOut => .warnedTimeout
            | .notFound => .errNotFound
            | .raised => .warnedRaised)
        else (false, .warnedMissing)
    | none => (false, .warnedMissing)
  else (false, .skipped)

/-- Everything observable about one call of run_rclone_chunk. -/
structure RunOutcome where
  status : Int
  launchAttempted : Bool
  recordedCode : Option Int
  command : List String
  logFileName : String
  sourceArg : String
  destArg : String
  postMsg : Option PostMsg
  uploadAttempted : Bool
  uploadAction : UploadAction

/-- run_rclone_chunk of src/modules/rclone_exec.py (lines 18-185).  The
source composes the remote locations, creates the log directory (failure is
the early return 1), builds the log file name and command list, runs the
child under the duration bound, classifies the recorded code, prints the
post-run message, optionally uploads the log, and returns the normalized
status.  FileNotFoundError returns 1 immediately, before the post-run
message and the upload section.  The source passes
str(log_file_path.resolve()) to --log-file; resolution against the process
working directory is embedded as the plain join. -/
def run_rclone_chunk (cfg : RunCfg) (env : Env) : RunOutcome :=
  let src := full_source_rclone_path cfg.remote_name cfg.source_path
  let dest := full_destination_exec cfg.remote_name cfg.dest_parent cfg.backup_folder_name
  if env.mkdirOk = false then
    { status := 1, launchAttempted := false, recordedCode := none, command := [],
      logFileName := "", sourceArg := src, destArg := dest, postMsg := none,
      uploadAttempted := false, uploadAction := .skipped }
  else
    let logName := cfg.log_file_basename ++ "_" ++ env.timestamp ++ ".log"
    let logPath := posixStr (posixJoin (posixParse cfg.log_dir) (posixParse logName))
    let cmd := ["rclone", "copy"] ++ cfg.rclone_flags
      ++ ["--log-file=" ++ logPath, src, dest]
    match classifyChild env.child with
    | none =>
      { status := 1, launchAttempted := true, recordedCode := none, command := cmd,
        logFileName := logName, sourceArg := src, destArg := dest, postMsg := none,
        uploadAttempted := false, uploadAction := .skipped }
    | some ec =>
      let up := uploadPhase cfg env.upload
      { status := if ec = 0 ∨ ec = 124 ∨ ec = 130 then 0 else ec,
        launchAttempted := true, recordedCode := some ec, command := cmd,
        logFileName := logName, sourceArg := src, destArg := dest,
        postMsg := some (postRunMessage ec),
        uploadAttempted := up.1, uploadAction := up.2 }

/-- The entry point maps the returned status directly to the process exit
code: sys.exit(run_status) in src/chunk_rclone.py line 175. -/
def mainExitCode (runStatus : Int) : Int := runStatus

def asStr : TomlVal → Option String
  | .vStr s => some s
  | _ => none

def asStrList : TomlVal → Option (List String)
  | .vArr items => items.mapM asStr
  | _ => none

/-- The typed view of a validated settings record as run_rclone_chunk uses
it: path fields as strings, flags as a string list, the duration as the
number subprocess timeout arithmetic sees (True counts as 1), upload flag by
truthiness.  A field of an unexpected type would make the child-process
call raise, embedded as none. -/
def toRunCfg (s : SettingsV) : Option RunCfg :=
  match asStr s.remote_name, asStr s.source_path, asStr s.dest_parent,
      asStr s.backup_folder_name, asStrList s.rclone_flags, asStr s.log_dir,
      asStr s.log_file_basename with
  | some rn, some sp, some dp, some bf, some fl, some ld, some lb =>
      some { remote_name := rn, source_path := sp, dest_parent := dp,
             backup_folder_name := bf,
             run_duration_seconds := pyIntVal s.run_duration_raw,
             log_dir := ld, log_file_basename := lb, rclone_flags := fl,
             run_description := (asStr s.run_description).getD "",
             upload_logs_to_remote := pyTruthy s.upload_logs_to_remote,
             remote_log_upload_path :=
               match s.remote_log_upload_path with
               | some v => asStr v
               | none => none }
  | _, _, _, _, _, _, _ => none

/-- Validation followed by the chunk run: none means the process exited
during configuration validation and no transfer-tool child was launched. -/
def chunkPipeline (effective : Table) (env : Env) : Option RunOutcome :=
  ((validateSettings effective).bind toRunCfg).map (fun c => run_rclone_chunk c env)

/-- Result of determining the control file
(src/modules/config_handler.py lines 61-81): fatal embeds the sys.exit(1)
for an explicitly named but missing control file; baseOnly is the
informational proceed-with-base-only path; load carries the path whose file
will be parsed. -/
inductive ControlFileDecision where
  | fatal
  | load (path : String)
  | baseOnly
deriving DecidableEq

/-- The default branch: look for control.toml in the working directory. -/
def defaultCtl (fs : String → Bool) (cwd : String) : ControlFileDecision :=
  let d := posixJoin (posixParse cwd) (posixParse "control.toml")
  if fs (posixStr d) then .load (posixStr d) else .baseOnly

/-- Determining the control file.  fs is the filesystem is_file oracle over
rendered path strings.  An explicit argument is tried as given, then, if
relative, re-joined under the working directory; failing both is fatal.  An
empty argument string is falsy in Python, so it takes the default branch. -/
def determineControlFile (fs : String → Bool) (cwd : String)
    (arg : Option String) : ControlFileDecision :=
  match arg with
  | some a =>
      if a = "" then defaultCtl fs cwd
      else
        let p0 := posixParse a
        if fs (posixStr p0) then .load (posixStr p0)
        else
          let p1 := if p0.root = [] then posixJoin (posixParse cwd) p0 else p0
          if fs (posixStr p1) then .load (posixStr p1) else .fatal
  | none => defaultCtl fs cwd

/-- Steps 1-3 of load_effective_config after the base file is parsed:
decide the control file, parse it if one was identified (parseToml none
embeds a TOMLDecodeError exit), and merge it on top of the base table. -/
def loadEffectiveTable (fs : String → Bool) (parseToml : String → Option Table)
    (base : Table) (cwd : String) (arg : Option String) : Option Table :=
  match determineControlFile fs cwd arg with
  | .fatal => none
  | .baseOnly => some base
  | .load p =>
      match parseToml p with
      | some control => some (mergeConfigs base control)
      | none => none

/-- Modelled from the spec: the repository revision that parses command-line
arguments is not under src (the main function of src/chunk_rclone.py takes
no arguments, yet load_effective_config in src/modules/config_handler.py
documents a command-line control file argument and has no caller in src).
Per the spec, the CLI surface is program [control_file] [--dry-run]: one
optional positional control-file path, one optional dry-run flag, no other
flags. -/
inductive CliParse where
  | ok (controlFile : Option String) (dryRun : Bool)
  | error
deriving DecidableEq

/-- Whether a string begins with the dash character (startswith("-")). -/
def strStartsDash (s : String) : Bool :=
  match s.data with
  | [] => false
  | c :: _ => c = '-'

/-- Modelled from the spec: argument scan for the CLI surface above.  A
second positional or an unknown flag is a usage error. -/
def parseCliGo : List String → Option String → Bool → CliParse
  | [], c, d => .ok c d
  | a :: rest, c, d =>
      if a = "--dry-run" then parseCliGo rest c true
      else if strStartsDash a then .error
      else
        match c with
        | none => parseCliGo rest (some a) d
        | some _ => .error

/-- Modelled from the spec: parse the argument list of the entry point. -/
def parseCli (args : List String) : CliParse := parseCliGo args none false

/-- Modelled from the spec: the entry point drives the loader with the
parsed positional control-file argument and keeps the dry-run flag; a usage
error terminates before any loading. -/
def mainDrive (args : List String) (fs : String → Bool)
    (parseToml : String → Option Table) (base : Table) (cwd : String) :
    Option (Option Table × Bool) :=
  match parseCli args with
  | .error => none
  | .ok c d => some (loadEffectiveTable fs parseToml base cwd c, d)

/-- Modelled from the spec: the dry-run feature is absent from the revisions
under src (no is_dry_run appears in chunk_rclone.py or rclone_exec.py).
Per the spec, the argument list is the copy subcommand, then rclone_flags in
order, then --dry-run when is_dry_run is set, then --log-file, then the
source location, then the destination location. -/
def buildCommandSpec (flags : List String) (is_dry_run : Bool)
    (logPath remote source_path dest_path : String) : List String :=
  ["rclone", "copy"] ++ flags
    ++ (if is_dry_run then ["--dry-run"] else [])
    ++ ["--log-file=" ++ logPath,
        remote ++ ":" ++ source_path,
        remote ++ ":" ++ dest_path]

/-- Modelled from the spec: the child-process log file name is
basename_timestamp with the suffix _DRYRUN inserted before the .log
extension when is_dry_run is set. -/
def logFileNameSpec (basename timestamp : String) (is_dry_run : Bool) : String :=
  basename ++ "_" ++ timestamp ++ (if is_dry_run then "_DRYRUN" else "") ++ ".log"

/-- A concrete effective configuration whose run_duration_seconds is the
TOML boolean true and whose other required fields are valid. -/
def cfgBoolDuration : Table :=
  [("rclone_paths", .vTable
      [("remote_name", .vStr "gdrive"),
       ("source_path", .vStr "src_folder"),
       ("destination_parent_path", .vStr ""),
       ("backup_folder_name", .vStr "backup")]),
   ("chunking", .vTable [("run_duration_seconds", .vBool true)])]

/-- A concrete benign environment: mkdir succeeds, the child exits 0. -/
def envDemo : Env :=
  { mkdirOk := true, timestamp := "20250101_120000",
    child := .exited 0, upload := .completed 0 }

/-- Base table fixture for the merge witness. -/
def baseDemo : Table :=
  [("secA", .vTable
      [("keep", .vStr "b1"), ("over", .vInt 1), ("nest", .vTable [("x", .vInt 1)])]),
   ("secB", .vTable [("u", .vInt 3)]),
   ("plain", .vStr "old"),
   ("weird", .vStr "notTable")]

/-- Control table fixture for the merge witness. -/
def controlDemo : Table :=
  [("secA", .vTable [("over", .vStr "two"), ("nest", .vTable [("z", .vInt 9)])]),
   ("plain", .vInt 42),
   ("weird", .vTable [("w", .vInt 7)])]

def btDemo : Table :=
  [("keep", .vStr "b1"), ("over", .vInt 1), ("nest", .vTable [("x", .vInt 1)])]

def ctDemo : Table :=
  [("over", .vStr "two"), ("nest", .vTable [("z", .vInt 9)])]

/-- Configuration with uploads enabled but no remote_log_upload_path. -/
def cfgUploadMissingPath : RunCfg :=
  { remote_name := "gdrive", source_path := "src_folder", dest_parent := "",
    backup_folder_name := "backup", run_duration_seconds := 60,
    log_dir := "rclone_chunk_logs_py", log_file_basename := "rclone_copy_chunk",
    rclone_flags := [], run_description := "Chunked Rclone Run",
    upload_logs_to_remote := true, remote_log_upload_path := none }

/-- Configuration with uploads enabled and a path configured. -/
def cfgUploadWithPath : RunCfg :=
  { cfgUploadMissingPath with remote_log_upload_path := some "logs/remote" }

/-- Environment where the main child exits 7 and the log upload times out. -/
def envExit7UploadTimeout : Env :=
  { mkdirOk := true, timestamp := "20250101_120000",
    child := .exited 7, upload := .timedOut }

theorem lookupKey_setKey_self (t : Table) (k : String) (v : TomlVal) :
    lookupKey (setKey t k v) k = some v := by
  induction t with
  | nil => simp [setKey, lookupKey]
  | cons kv rest ih =>
    obtain ⟨k2, v2⟩ := kv
    by_cases h : k2 = k
    · simp [setKey, h, lookupKey]
    · simp [setKey, h, lookupKey, ih]

theorem lookupKey_setKey_ne (t : Table) (k k2 : String) (v : TomlVal)
    (h : k ≠ k2) : lookupKey (setKey t k v) k2 = lookupKey t k2 := by
  induction t with
  | nil => simp [setKey, lookupKey, h]
  | cons kv rest ih =>
    obtain ⟨k3, v3⟩ := kv
    by_cases h3 : k3 = k
    · subst h3
      simp [setKey, lookupKey, h]
    · simp [setKey, h3, lookupKey, ih]

theorem lookupKey_eq_none_of_not_mem (t : Table) (k : String)
    (h : k ∉ t.map Prod.fst) : lookupKey t k = none := by
  induction t with
  | nil => rfl
  | cons kv rest ih =>
    obtain ⟨k2, v2⟩ := kv
    simp only [List.map_cons, List.mem_cons] at h
    push_neg at h
    simp [lookupKey, Ne.symm h.1, ih h.2]

theorem lookupKey_dictUpdate (d u : Table) (k : String)
    (hu : (u.map Prod.fst).Nodup) :
    lookupKey (dictUpdate d u) k =
      match lookupKey u k with
      | some v => some v
      | none => lookupKey d k := by
  induction u generalizing d with
  | nil => simp [dictUpdate, lookupKey]
  | cons kv rest ih =>
    obtain ⟨k1, v1⟩ := kv
    simp only [List.map_cons, List.nodup_cons] at hu
    have step : dictUpdate d ((k1, v1) :: rest) = dictUpdate (setKey d k1 v1) rest := rfl
    rw [step, ih (setKey d k1 v1) hu.2]
    by_cases hk : k = k1
    · subst hk
      rw [lookupKey_eq_none_of_not_mem rest k hu.1]
      simp [lookupKey, lookupKey_setKey_self]
    · have : lookupKey ((k1, v1) :: rest) k = lookupKey rest k := by
        simp [lookupKey, Ne.symm hk]
      rw [this, lookupKey_setKey_ne d k1 k v1 (Ne.symm hk)]

theorem lookupKey_mergeStep_self (base : Table) (k : String) (cv : TomlVal) :
    lookupKey (mergeStep base (k, cv)) k = mergeSpec (some cv) (lookupKey base k) := by
  unfold mergeStep mergeSpec
  cases cv with
  | vTable ct =>
    cases hb : lookupKey base k with
    | none => simp [lookupKey_setKey_self]
    | some bv =>
      cases bv <;> simp [lookupKey_setKey_self]
  | vStr s => simp [lookupKey_setKey_self]
  | vInt n => simp [lookupKey_setKey_self]
  | vBool b => simp [lookupKey_setKey_self]
  | vFloat m e => simp [lookupKey_setKey_self]
  | vArr l => simp [lookupKey_setKey_self]

theorem lookupKey_mergeStep_ne (base : Table) (k k2 : String) (cv : TomlVal)
    (h : k ≠ k2) : lookupKey (mergeStep base (k, cv)) k2 = lookupKey base k2 := by
  unfold mergeStep
  cases cv with
  | vTable ct =>
    cases hb : lookupKey base k with
    | none => simp [lookupKey_setKey_ne _ _ _ _ h]
    | some bv =>
      cases bv <;> simp [lookupKey_setKey_ne _ _ _ _ h]
  | vStr s => simp [lookupKey_setKey_ne _ _ _ _ h]
  | vInt n => simp [lookupKey_setKey_ne _ _ _ _ h]
  | vBool b => simp [lookupKey_setKey_ne _ _ _ _ h]
  | vFloat m e => simp [lookupKey_setKey_ne _ _ _ _ h]
  | vArr l => simp [lookupKey_setKey_ne _ _ _ _ h]

/-- Pointwise characterization of mergeConfigs for control tables with
unique keys. -/
theorem lookupKey_mergeConfigs (base control : Table) (k : String)
    (h : (control.map Prod.fst).Nodup) :
    lookupKey (mergeConfigs base control) k =
      mergeSpec (lookupKey control k) (lookupKey base k) := by
  induction control generalizing base with
  | nil => simp [mergeConfigs, mergeSpec, lookupKey]
  | cons kv rest ih =>
    obtain ⟨k1, cv⟩ := kv
    simp only [List.map_cons, List.nodup_cons] at h
    have step : mergeConfigs base ((k1, cv) :: rest)
        = mergeConfigs (mergeStep base (k1, cv)) rest := rfl
    rw [step, ih (mergeStep base (k1, cv)) h.2]
    by_cases hk : k = k1
    · subst hk
      rw [lookupKey_eq_none_of_not_mem rest k h.1]
      have : lookupKey ((k, cv) :: rest) k = some cv := by simp [lookupKey]
      rw [this, lookupKey_mergeStep_self]
      rfl
    · have : lookupKey ((k1, cv) :: rest) k = lookupKey rest k := by
        simp [lookupKey, Ne.symm hk]
      rw [this, lookupKey_mergeStep_ne base k1 k cv (Ne.symm hk)]

theorem sepJoinL_append (a b : List (List Char)) (ha : a ≠ []) (hb : b ≠ []) :
    sepJoinL (a ++ b) = sepJoinL a ++ '/' :: sepJoinL b := by
  induction a with
  | nil => exact absurd rfl ha
  | cons x xs ih =>
    cases xs with
    | nil =>
      cases b with
      | nil => exact absurd rfl hb
      | cons y ys => simp [sepJoinL]
    | cons x2 xs2 =>
      have h3 := ih (by simp)
      simp only [List.cons_append, List.append_eq, sepJoinL] at h3 ⊢
      rw [h3]
      simp [List.append_assoc]

theorem string_data_append (a b : String) : (a ++ b).data = a.data ++ b.data := by
  cases a
  cases b
  rfl

theorem string_mk_inj (a b : List Char) (h : (⟨a⟩ : String) = ⟨b⟩) : a = b := by
  injection h

/-- C3: the merge of a parsed base and control tree is exactly one level
deep: a key inside a section that the control file does not mention keeps
its base value (both when the whole section is absent from the control file
and when only the key is); a key present in the matching control section
overrides regardless of type, including nested sections, which are replaced
wholesale rather than recursively merged; and a top-level key whose value is
not a table in both trees is replaced wholesale by the control value. -/
theorem C3_one_level_merge
    (base control : Table) (Sa Sb Sc Sd k j j2 : String)
    (bt ct cd nt : Table) (v cv bv : TomlVal)
    (hnd : (control.map Prod.fst).Nodup)
    (hct : (ct.map Prod.fst).Nodup)
    (hSb : lookupKey control Sb = none)
    (hSac : lookupKey control Sa = some (.vTable ct))
    (hSab : lookupKey base Sa = some (.vTable bt))
    (hk : lookupKey ct k = none)
    (hj : lookupKey ct j = some v)
    (hj2 : lookupKey ct j2 = some (.vTable nt))
    (hSc : lookupKey control Sc = some cv)
    (hcv : isTomlTable cv = false)
    (hSdc : lookupKey control Sd = some (.vTable cd))
    (hSdb : lookupKey base Sd = some bv)
    (hbv : isTomlTable bv = false) :
    lookupKey (mergeConfigs base control) Sb = lookupKey base Sb
    ∧ lookupKey (mergeConfigs base control) Sa = some (.vTable (dictUpdate bt ct))
    ∧ lookupKey (dictUpdate bt ct) k = lookupKey bt k
    ∧ lookupKey (dictUpdate bt ct) j = some v
    ∧ lookupKey (dictUpdate bt ct) j2 = some (.vTable nt)
    ∧ lookupKey (mergeConfigs base control) Sc = some cv
    ∧ lookupKey (mergeConfigs base control) Sd = some (.vTable cd) := by
  refine ⟨?_, ?_, ?_, ?_, ?_, ?_, ?_⟩
  · rw [lookupKey_mergeConfigs base control Sb hnd, hSb]
    rfl
  · rw [lookupKey_mergeConfigs base control Sa hnd, hSac, hSab]
    rfl
  · rw [lookupKey_dictUpdate bt ct k hct, hk]
  · rw [lookupKey_dictUpdate bt ct j hct, hj]
  · rw [lookupKey_dictUpdate bt ct j2 hct, hj2]
  · rw [lookupKey_mergeConfigs base control Sc hnd, hSc]
    cases cv with
    | vTable t => simp [isTomlTable] at hcv
    | vStr s => rfl
    | vInt n => rfl
    | vBool b => rfl
    | vFloat m e => rfl
    | vArr l => rfl
  · rw [lookupKey_mergeConfigs base control Sd hnd, hSdc, hSdb]
    cases bv with
    | vTable t => simp [isTomlTable] at hbv
    | vStr s => rfl
    | vInt n => rfl
    | vBool b => rfl
    | vFloat m e => rfl
    | vArr l => rfl

/-- Witness for C3 on the concrete fixtures. -/
theorem C3_one_level_merge_witness :
    lookupKey (mergeConfigs baseDemo controlDemo) "secB" = lookupKey baseDemo "secB"
    ∧ lookupKey (mergeConfigs baseDemo controlDemo) "secA"
        = some (.vTable (dictUpdate btDemo ctDemo))
    ∧ lookupKey (dictUpdate btDemo ctDemo) "keep" = lookupKey btDemo "keep"
    ∧ lookupKey (dictUpdate btDemo ctDemo) "over" = some (.vStr "two")
    ∧ lookupKey (dictUpdate btDemo ctDemo) "nest" = some (.vTable [("z", .vInt 9)])
    ∧ lookupKey (mergeConfigs baseDemo controlDemo) "plain" = some (.vInt 42)
    ∧ lookupKey (mergeConfigs baseDemo controlDemo) "weird"
        = some (.vTable [("w", .vInt 7)]) :=
  C3_one_level_merge baseDemo controlDemo "secA" "secB" "plain" "weird"
    "keep" "over" "nest" btDemo ctDemo [("w", .vInt 7)] [("z", .vInt 9)]
    (.vStr "two") (.vInt 42) (.vStr "notTable")
    (by decide) (by decide) rfl rfl rfl rfl rfl rfl rfl rfl rfl rfl rfl

theorem ppathData_join_relative (p x : PPath)
    (hx : x.root = []) (hpp : p.parts ≠ []) (hxp : x.parts ≠ []) :
    ppathData (posixJoin p x) = ppathData p ++ '/' :: sepJoinL x.parts := by
  obtain ⟨pr, pp⟩ := p
  obtain ⟨xr, xp⟩ := x
  simp only at hx hpp hxp
  subst hx
  unfold posixJoin ppathData
  simp only
  by_cases hr : pr = []
  · have hne : pp ++ xp ≠ [] := fun h => hpp (List.append_eq_nil.mp h).1
    simp [hr, hpp, hne, sepJoinL_append pp xp hpp hxp]
  · simp [hr, sepJoinL_append pp xp hpp hxp, List.append_assoc]

theorem string_eta (s : String) : s = ⟨s.data⟩ := rfl

theorem string_append_empty (s : String) : s ++ "" = s := by
  cases s with
  | mk l =>
    show (⟨l ++ []⟩ : String) = ⟨l⟩
    rw [List.append_nil]

/-- C4 counterexample: with the non-empty parent P and an absolute backup
folder name /abs, both composition functions yield r:/abs, not the
r:P//abs the claim requires for every backup_folder_name. -/
theorem C4_counterexample :
    full_destination_exec "r" "P" "/abs" = "r:/abs"
    ∧ full_destination_chunk "r" "P" "/abs" = "r:/abs"
    ∧ full_destination_exec "r" "P" "/abs" ≠ "r:" ++ ("P" ++ "/" ++ "/abs") := by
  refine ⟨rfl, rfl, ?_⟩
  decide

/-- C4 amended: with an empty dest_parent_path the standalone composition
is remote:X for every X (the modular one additionally needs X to be a
normalized relative name, since it still goes through the path join); with
a non-empty normalized dest_parent_path P and a normalized relative
backup_folder_name X both compositions equal remote:P/X.  Non-normalized or
absolute backup names instead produce remote:str(PurePosixPath(P)/X). -/
theorem C4_amended_destination (r P X : String)
    (hP : P ≠ "")
    (hPr : posixStr (posixParse P) = P)
    (hPp : (posixParse P).parts ≠ [])
    (hXroot : (posixParse X).root = [])
    (hXp : (posixParse X).parts ≠ [])
    (hXr : posixStr (posixParse X) = X) :
    full_destination_chunk r "" X = r ++ ":" ++ X
    ∧ full_destination_exec r "" X = r ++ ":" ++ X
    ∧ full_destination_chunk r P X = r ++ ":" ++ (P ++ "/" ++ X)
    ∧ full_destination_exec r P X = r ++ ":" ++ (P ++ "/" ++ X) := by
  have hXdata : X.data = sepJoinL (posixParse X).parts := by
    have h1 := congrArg String.data hXr
    unfold posixStr ppathData at h1
    rw [if_pos hXroot, if_neg hXp] at h1
    exact h1.symm
  have hexecEmpty : full_destination_exec r "" X = r ++ ":" ++ X := by
    unfold full_destination_exec
    have hparse : posixParse "" = ⟨[], []⟩ := rfl
    rw [hparse]
    unfold posixJoin
    rw [if_pos hXroot]
    simp only [List.nil_append]
    unfold posixStr ppathData
    simp only
    rw [if_pos trivial, if_neg hXp, ← hXdata]
  have hcore : posixStr (posixJoin (posixParse P) (posixParse X)) = P ++ "/" ++ X := by
    unfold posixStr
    rw [ppathData_join_relative (posixParse P) (posixParse X) hXroot hPp hXp]
    have hPdata : P.data = ppathData (posixParse P) := by
      have h1 := congrArg String.data hPr
      exact h1.symm
    have hgoal : ppathData (posixParse P) ++ '/' :: sepJoinL (posixParse X).parts
        = (P ++ "/" ++ X).data := by
      rw [string_data_append, string_data_append, hPdata, ← hXdata]
      simp
    rw [hgoal]
  refine ⟨by simp [full_destination_chunk], hexecEmpty, ?_, ?_⟩
  · unfold full_destination_chunk
    rw [if_neg hP, hcore]
  · unfold full_destination_exec
    rw [hcore]

/-- Witness for C4 amended on concrete normalized paths. -/
theorem C4_amended_destination_witness :
    full_destination_chunk "gdrive" "" "snap" = "gdrive" ++ ":" ++ "snap"
    ∧ full_destination_exec "gdrive" "" "snap" = "gdrive" ++ ":" ++ "snap"
    ∧ full_destination_chunk "gdrive" "data/backups" "snap"
        = "gdrive" ++ ":" ++ ("data/backups" ++ "/" ++ "snap")
    ∧ full_destination_exec "gdrive" "data/backups" "snap"
        = "gdrive" ++ ":" ++ ("data/backups" ++ "/" ++ "snap") :=
  C4_amended_destination "gdrive" "data/backups" "snap"
    (by decide) (by decide) (by decide) (by decide) (by decide) (by decide)

theorem rootOf_slash (t : List Char) : rootOf ('/' :: t) ≠ [] := by
  match t with
  | [] => simp [rootOf]
  | [c2] =>
    unfold rootOf
    by_cases h : c2 = '/' <;> simp [h]
  | c2 :: c3 :: r =>
    unfold rootOf
    by_cases h2 : c2 = '/' <;> by_cases h3 : c3 = '/' <;> simp [h2, h3]

/-- C10: for a non-empty dest_parent_path P and a backup_folder_name that
begins with a path separator (a normalized absolute path such as /abs), the
pathlib join discards P entirely: both composition functions produce
remote:backup_folder_name, which differs from remote:P/backup_folder_name;
P contributes only when the backup name is relative. -/
theorem C10_absolute_backup_discards_parent (r P X : String) (t : List Char)
    (hP : P ≠ "") (hX : X.data = '/' :: t) (hXn : posixStr (posixParse X) = X) :
    full_destination_exec r P X = r ++ ":" ++ X
    ∧ full_destination_chunk r P X = r ++ ":" ++ X
    ∧ r ++ ":" ++ X ≠ r ++ ":" ++ (P ++ "/" ++ X) := by
  have hroot : (posixParse X).root ≠ [] := by
    unfold posixParse
    simp only
    rw [hX]
    exact rootOf_slash t
  have hjoin : posixJoin (posixParse P) (posixParse X) = posixParse X := by
    unfold posixJoin
    rw [if_neg hroot]
  refine ⟨?_, ?_, ?_⟩
  · unfold full_destination_exec
    rw [hjoin, hXn]
  · unfold full_destination_chunk
    rw [if_neg hP, hjoin, hXn]
  · intro h
    have hd := congrArg String.data h
    simp only [string_data_append] at hd
    have hlen := congrArg List.length hd
    have hc : (":" : String).data.length = 1 := rfl
    have hs : ("/" : String).data.length = 1 := rfl
    have hPd : P.data ≠ [] := fun hnil => hP (by rw [string_eta P, hnil])
    have hpos : 0 < P.data.length := List.length_pos.mpr hPd
    simp only [List.length_append] at hlen
    omega

/-- Witness for C10 at the absolute backup name /abs. -/
theorem C10_absolute_backup_discards_parent_witness :
    full_destination_exec "gdrive" "parent" "/abs" = "gdrive" ++ ":" ++ "/abs"
    ∧ full_destination_chunk "gdrive" "parent" "/abs" = "gdrive" ++ ":" ++ "/abs"
    ∧ "gdrive" ++ ":" ++ "/abs" ≠ "gdrive" ++ ":" ++ ("parent" ++ "/" ++ "/abs") :=
  C10_absolute_backup_discards_parent "gdrive" "parent" "/abs" ['a', 'b', 's']
    (by decide) rfl (by decide)

theorem durationValue_of_sectionTable (effective : Table) (t : Table)
    (h : sectionTable (lookupKey effective "chunking") = some t) :
    lookupKey t "run_duration_seconds" = durationValue effective := by
  unfold sectionTable at h
  unfold durationValue
  cases hc : lookupKey effective "chunking" with
  | none =>
    rw [hc] at h
    simp at h
    subst h
    rfl
  | some v =>
    rw [hc] at h
    cases v <;> simp at h
    subst h
    rfl

theorem durationOk_of_validateSettings_some (effective : Table) (s : SettingsV)
    (h : validateSettings effective = some s) :
    durationOk (durationValue effective) = true := by
  unfold validateSettings at h
  split at h
  next => exact Option.noConfusion h
  next rclone_paths hs =>
    split at h
    next => exact Option.noConfusion h
    next h1 =>
      split at h
      next => exact Option.noConfusion h
      next h2 =>
        split at h
        next rn sp dp bf hrn hsp hdp hbf =>
          split at h
          next => exact Option.noConfusion h
          next ropts hro =>
            split at h
            next => exact Option.noConfusion h
            next chunking hch =>
              split at h
              next => exact Option.noConfusion h
              next hdur =>
                rw [← durationValue_of_sectionTable effective chunking hch]
                simp only [Bool.not_eq_false] at hdur
                exact hdur
        next hcatch => exact Option.noConfusion h

theorem validateSettings_eq_none_of_bad_duration (effective : Table)
    (h : durationOk (durationValue effective) = false) :
    validateSettings effective = none := by
  cases hv : validateSettings effective with
  | none => rfl
  | some s =>
    have ht := durationOk_of_validateSettings_some effective s hv
    rw [h] at ht
    exact Bool.noConfusion ht

/-- C5 counterexample: run_duration_seconds = true is not a TOML integer,
yet validation accepts it, because isinstance(True, int) holds in Python
(bool subclasses int) and True > 0. -/
theorem C5_counterexample :
    isTomlInt (TomlVal.vBool true) = false
    ∧ durationOk (some (TomlVal.vBool true)) = true
    ∧ (validateSettings cfgBoolDuration).isSome = true := by
  refine ⟨rfl, rfl, ?_⟩
  decide

/-- C5 amended: a run_duration_seconds that is 0, negative, missing, a
float, or a string fails validation with an error before any child process
is launched (the pipeline produces no run); the amendment is that a TOML
boolean is not rejected, because bool is a subclass of int in Python. -/
theorem C5_amended_duration_validation (effective : Table) (env : Env)
    (v : Option TomlVal) (n m : Int) (e : Nat) (str : String)
    (hv : durationValue effective = v)
    (hbad : durationOk v = false)
    (hn : n ≤ 0) :
    validateSettings effective = none
    ∧ chunkPipeline effective env = none
    ∧ durationOk (some (TomlVal.vInt n)) = false
    ∧ durationOk (some (TomlVal.vFloat m e)) = false
    ∧ durationOk (some (TomlVal.vStr str)) = false
    ∧ durationOk none = false := by
  have hnone : validateSettings effective = none :=
    validateSettings_eq_none_of_bad_duration effective (hv ▸ hbad)
  refine ⟨hnone, ?_, ?_, rfl, rfl, rfl⟩
  · unfold chunkPipeline
    rw [hnone]
    rfl
  · simp only [durationOk, pyIsInt, pyIntVal, Bool.true_and]
    simp [hn]

/-- Witness for C5 amended: a configuration whose duration is the string
sixty is rejected and launches nothing. -/
theorem C5_amended_duration_validation_witness :
    validateSettings
        [("rclone_paths", .vTable
            [("remote_name", .vStr "gdrive"),
             ("source_path", .vStr "src_folder"),
             ("destination_parent_path", .vStr ""),
             ("backup_folder_name", .vStr "backup")]),
         ("chunking", .vTable [("run_duration_seconds", .vStr "sixty")])] = none
    ∧ chunkPipeline
        [("rclone_paths", .vTable
            [("remote_name", .vStr "gdrive"),
             ("source_path", .vStr "src_folder"),
             ("destination_parent_path", .vStr ""),
             ("backup_folder_name", .vStr "backup")]),
         ("chunking", .vTable [("run_duration_seconds", .vStr "sixty")])] envDemo = none
    ∧ durationOk (some (TomlVal.vInt 0)) = false
    ∧ durationOk (some (TomlVal.vFloat 25 1)) = false
    ∧ durationOk (some (TomlVal.vStr "sixty")) = false
    ∧ durationOk none = false :=
  C5_amended_duration_validation
    [("rclone_paths", .vTable
        [("remote_name", .vStr "gdrive"),
         ("source_path", .vStr "src_folder"),
         ("destination_parent_path", .vStr ""),
         ("backup_folder_name", .vStr "backup")]),
     ("chunking", .vTable [("run_duration_seconds", .vStr "sixty")])]
    envDemo (some (TomlVal.vStr "sixty")) 0 25 1 "sixty" rfl rfl (by decide)

/-- C9: a TOML boolean true as run_duration_seconds passes both validation
sites, because isinstance(True, int) holds (bool subclasses int) and
True > 0; the run is launched with the numeric bound 1 second. -/
theorem C9_bool_duration_accepted :
    durationOk (some (TomlVal.vBool true)) = true
    ∧ pyIsInt (TomlVal.vBool true) = true
    ∧ pyIntVal (TomlVal.vBool true) = 1
    ∧ ((validateSettings cfgBoolDuration).bind toRunCfg).map
         (fun c => c.run_duration_seconds) = some 1
    ∧ (chunkPipeline cfgBoolDuration envDemo).map (fun o => o.launchAttempted)
        = some true := by
  refine ⟨rfl, rfl, rfl, ?_, ?_⟩ <;> decide

/-- The returned status depends only on the mkdir outcome and the child
outcome: the upload section never changes it. -/
theorem run_rclone_chunk_status (cfg : RunCfg) (env : Env) :
    (run_rclone_chunk cfg env).status
      = (if env.mkdirOk then statusOfChild env.child else 1) := by
  unfold run_rclone_chunk statusOfChild
  cases hm : env.mkdirOk with
  | false => simp [hm]
  | true => cases hc : classifyChild env.child <;> simp [hm, hc]

theorem run_rclone_chunk_recordedCode (cfg : RunCfg) (env : Env)
    (hm : env.mkdirOk = true) :
    (run_rclone_chunk cfg env).recordedCode = classifyChild env.child := by
  unfold run_rclone_chunk
  cases hc : classifyChild env.child <;> simp [hm, hc]

theorem run_rclone_chunk_postMsg (cfg : RunCfg) (env : Env) (ec : Int)
    (hm : env.mkdirOk = true) (hc : classifyChild env.child = some ec) :
    (run_rclone_chunk cfg env).postMsg = some (postRunMessage ec) := by
  unfold run_rclone_chunk
  simp [hm, hc]

theorem run_rclone_chunk_upload (cfg : RunCfg) (env : Env) (ec : Int)
    (hm : env.mkdirOk = true) (hc : classifyChild env.child = some ec) :
    (run_rclone_chunk cfg env).uploadAttempted = (uploadPhase cfg env.upload).1
    ∧ (run_rclone_chunk cfg env).uploadAction = (uploadPhase cfg env.upload).2 := by
  unfold run_rclone_chunk
  simp [hm, hc]

/-- C1: a child that exits 0 before the duration bound gives status 0 and
process exit 0; a child still running at the bound is terminated, the
sentinel 124 is recorded, and the status and process exit are still 0; a
child exiting with any code other than 0, 124 and 130 yields exactly that
code as the returned status and process exit, together with the WARNING
post-run message. -/
theorem C1_exit_code_classification (cfg : RunCfg) (env0 envT envC : Env) (c : Int)
    (h0m : env0.mkdirOk = true) (h0c : env0.child = ChildResult.exited 0)
    (hTm : envT.mkdirOk = true) (hTc : envT.child = ChildResult.timedOut)
    (hCm : envC.mkdirOk = true) (hCc : envC.child = ChildResult.exited c)
    (hc0 : c ≠ 0) (hc124 : c ≠ 124) (hc130 : c ≠ 130) :
    (run_rclone_chunk cfg env0).status = 0
    ∧ mainExitCode (run_rclone_chunk cfg env0).status = 0
    ∧ (run_rclone_chunk cfg envT).recordedCode = some 124
    ∧ (run_rclone_chunk cfg envT).status = 0
    ∧ mainExitCode (run_rclone_chunk cfg envT).status = 0
    ∧ (run_rclone_chunk cfg envC).status = c
    ∧ (run_rclone_chunk cfg envC).postMsg = some (PostMsg.warning c)
    ∧ mainExitCode (run_rclone_chunk cfg envC).status = c := by
  have hs0 : (run_rclone_chunk cfg env0).status = 0 := by
    rw [run_rclone_chunk_status]
    simp [h0m, h0c, statusOfChild, classifyChild]
  have hsT : (run_rclone_chunk cfg envT).status = 0 := by
    rw [run_rclone_chunk_status]
    simp [hTm, hTc, statusOfChild, classifyChild]
  have hsC : (run_rclone_chunk cfg envC).status = c := by
    rw [run_rclone_chunk_status]
    simp [hCm, hCc, statusOfChild, classifyChild, hc0, hc124, hc130]
  refine ⟨hs0, ?_, ?_, hsT, ?_, hsC, ?_, ?_⟩
  · rw [mainExitCode, hs0]
  · rw [run_rclone_chunk_recordedCode cfg envT hTm, hTc]
    rfl
  · rw [mainExitCode, hsT]
  · rw [run_rclone_chunk_postMsg cfg envC c hCm (by rw [hCc]; rfl)]
    simp [postRunMessage, hc0, hc124, hc130]
  · rw [mainExitCode, hsC]

/-- Witness for C1 at a child exit code of 7. -/
theorem C1_exit_code_classification_witness :
    (run_rclone_chunk
        { remote_name := "gdrive", source_path := "src_folder", dest_parent := "",
          backup_folder_name := "backup", run_duration_seconds := 60,
          log_dir := "rclone_chunk_logs_py", log_file_basename := "rclone_copy_chunk",
          rclone_flags := [], run_description := "Chunked Rclone Run",
          upload_logs_to_remote := false, remote_log_upload_path := none }
        envDemo).status = 0
    ∧ mainExitCode (run_rclone_chunk
        { remote_name := "gdrive", source_path := "src_folder", dest_parent := "",
          backup_folder_name := "backup", run_duration_seconds := 60,
          log_dir := "rclone_chunk_logs_py", log_file_basename := "rclone_copy_chunk",
          rclone_flags := [], run_description := "Chunked Rclone Run",
          upload_logs_to_remote := false, remote_log_upload_path := none }
        envDemo).status = 0
    ∧ (run_rclone_chunk
        { remote_name := "gdrive", source_path := "src_folder", dest_parent := "",
          backup_folder_name := "backup", run_duration_seconds := 60,
          log_dir := "rclone_chunk_logs_py", log_file_basename := "rclone_copy_chunk",
          rclone_flags := [], run_description := "Chunked Rclone Run",
          upload_logs_to_remote := false, remote_log_upload_path := none }
        { mkdirOk := true, timestamp := "20250101_120000",
          child := .timedOut, upload := .completed 0 }).recordedCode = some 124
    ∧ (run_rclone_chunk
        { remote_name := "gdrive", source_path := "src_folder", dest_parent := "",
          backup_folder_name := "backup", run_duration_seconds := 60,
          log_dir := "rclone_chunk_logs_py", log_file_basename := "rclone_copy_chunk",
          rclone_flags := [], run_description := "Chunked Rclone Run",
          upload_logs_to_remote := false, remote_log_upload_path := none }
        { mkdirOk := true, timestamp := "20250101_120000",
          child := .timedOut, upload := .completed 0 }).status = 0
    ∧ mainExitCode (run_rclone_chunk
        { remote_name := "gdrive", source_path := "src_folder", dest_parent := "",
          backup_folder_name := "backup", run_duration_seconds := 60,
          log_dir := "rclone_chunk_logs_py", log_file_basename := "rclone_copy_chunk",
          rclone_flags := [], run_description := "Chunked Rclone Run",
          upload_logs_to_remote := false, remote_log_upload_path := none }
        { mkdirOk := true, timestamp := "20250101_120000",
          child := .timedOut, upload := .completed 0 }).status = 0
    ∧ (run_rclone_chunk
        { remote_name := "gdrive", source_path := "src_folder", dest_parent := "",
          backup_folder_name := "backup", run_duration_seconds := 60,
          log_dir := "rclone_chunk_logs_py", log_file_basename := "rclone_copy_chunk",
          rclone_flags := [], run_description := "Chunked Rclone Run",
          upload_logs_to_remote := false, remote_log_upload_path := none }
        { mkdirOk := true, timestamp := "20250101_120000",
          child := .exited 7, upload := .completed 0 }).status = 7
    ∧ (run_rclone_chunk
        { remote_name := "gdrive", source_path := "src_folder", dest_parent := "",
          backup_folder_name := "backup", run_duration_seconds := 60,
          log_dir := "rclone_chunk_logs_py", log_file_basename := "rclone_copy_chunk",
          rclone_flags := [], run_description := "Chunked Rclone Run",
          upload_logs_to_remote := false, remote_log_upload_path := none }
        { mkdirOk := true, timestamp := "20250101_120000",
          child := .exited 7, upload := .completed 0 }).postMsg
        = some (PostMsg.warning 7)
    ∧ mainExitCode (run_rclone_chunk
        { remote_name := "gdrive", source_path := "src_folder", dest_parent := "",
          backup_folder_name := "backup", run_duration_seconds := 60,
          log_dir := "rclone_chunk_logs_py", log_file_basename := "rclone_copy_chunk",
          rclone_flags := [], run_description := "Chunked Rclone Run",
          upload_logs_to_remote := false, remote_log_upload_path := none }
        { mkdirOk := true, timestamp := "20250101_120000",
          child := .exited 7, upload := .completed 0 }).status = 7 :=
  C1_exit_code_classification
    { remote_name := "gdrive", source_path := "src_folder", dest_parent := "",
      backup_folder_name := "backup", run_duration_seconds := 60,
      log_dir := "rclone_chunk_logs_py", log_file_basename := "rclone_copy_chunk",
      rclone_flags := [], run_description := "Chunked Rclone Run",
      upload_logs_to_remote := false, remote_log_upload_path := none }
    envDemo
    { mkdirOk := true, timestamp := "20250101_120000",
      child := .timedOut, upload := .completed 0 }
    { mkdirOk := true, timestamp := "20250101_120000",
      child := .exited 7, upload := .completed 0 }
    7 rfl rfl rfl rfl rfl rfl (by decide) (by decide) (by decide)

/-- C6: when upload_logs_to_remote is set but remote_log_upload_path is
absent, no log-upload child is launched and the missing-path warning is
emitted; and for every run whatsoever, the returned ExitStatus is a
function of the mkdir outcome and the main child outcome alone, so the
log-upload outcome (skip, failure, or timeout) never changes it. -/
theorem C6_log_upload_isolation (cfgA : RunCfg) (envA : Env) (cfg : RunCfg) (env : Env)
    (hA1 : cfgA.upload_logs_to_remote = true)
    (hA2 : cfgA.remote_log_upload_path = none)
    (hAm : envA.mkdirOk = true)
    (hAc : envA.child ≠ ChildResult.notFound) :
    (run_rclone_chunk cfgA envA).uploadAttempted = false
    ∧ (run_rclone_chunk cfgA envA).uploadAction = UploadAction.warnedMissing
    ∧ (run_rclone_chunk cfg env).status
        = (if env.mkdirOk then statusOfChild env.child else 1) := by
  have hcA : ∃ ec, classifyChild envA.child = some ec := by
    cases h : envA.child with
    | notFound => exact absurd h hAc
    | exited code => exact ⟨code, rfl⟩
    | timedOut => exact ⟨124, rfl⟩
    | interrupted => exact ⟨130, rfl⟩
    | raised => exact ⟨1, rfl⟩
  obtain ⟨ec, hec⟩ := hcA
  have hup := run_rclone_chunk_upload cfgA envA ec hAm hec
  have hphase : uploadPhase cfgA envA.upload = (false, UploadAction.warnedMissing) := by
    unfold uploadPhase
    rw [hA1, hA2]
    simp
  refine ⟨?_, ?_, run_rclone_chunk_status cfg env⟩
  · rw [hup.1, hphase]
  · rw [hup.2, hphase]

/-- Witness for C6: uploads enabled without a path, benign environment; and
a run whose upload times out still returns the status of the main child. -/
theorem C6_log_upload_isolation_witness :
    (run_rclone_chunk cfgUploadMissingPath envDemo).uploadAttempted = false
    ∧ (run_rclone_chunk cfgUploadMissingPath envDemo).uploadAction
        = UploadAction.warnedMissing
    ∧ (run_rclone_chunk cfgUploadWithPath envExit7UploadTimeout).status = 7 := by
  have h := C6_log_upload_isolation cfgUploadMissingPath envDemo
    cfgUploadWithPath envExit7UploadTimeout rfl rfl rfl (by decide)
  exact ⟨h.1, h.2.1, h.2.2⟩

/-- C7: the two ways of having no control file are treated asymmetrically:
an explicitly supplied path that resolves to no existing file (tried as
given and then under the working directory) is fatal, while an absent
default control.toml in the working directory proceeds with the base
settings only. -/
theorem C7_control_file_asymmetry (fs : String → Bool)
    (parseToml : String → Option Table) (base : Table) (cwd a : String)
    (ha : a ≠ "")
    (h1 : fs (posixStr (posixParse a)) = false)
    (h2 : fs (posixStr (posixJoin (posixParse cwd) (posixParse a))) = false)
    (h3 : fs (posixStr (posixJoin (posixParse cwd) (posixParse "control.toml"))) = false) :
    determineControlFile fs cwd (some a) = ControlFileDecision.fatal
    ∧ loadEffectiveTable fs parseToml base cwd (some a) = none
    ∧ determineControlFile fs cwd none = ControlFileDecision.baseOnly
    ∧ loadEffectiveTable fs parseToml base cwd none = some base := by
  have hdet1 : determineControlFile fs cwd (some a) = ControlFileDecision.fatal := by
    unfold determineControlFile
    by_cases hr : (posixParse a).root = [] <;> simp [ha, h1, h2, hr]
  have hdet2 : determineControlFile fs cwd none = ControlFileDecision.baseOnly := by
    unfold determineControlFile defaultCtl
    simp [h3]
  refine ⟨hdet1, ?_, hdet2, ?_⟩
  · unfold loadEffectiveTable
    rw [hdet1]
  · unfold loadEffectiveTable
    rw [hdet2]

/-- Witness for C7 on an empty filesystem. -/
theorem C7_control_file_asymmetry_witness :
    determineControlFile (fun _ => false) "/work" (some "myctl.toml")
        = ControlFileDecision.fatal
    ∧ loadEffectiveTable (fun _ => false) (fun _ => none) baseDemo "/work"
        (some "myctl.toml") = none
    ∧ determineControlFile (fun _ => false) "/work" none
        = ControlFileDecision.baseOnly
    ∧ loadEffectiveTable (fun _ => false) (fun _ => none) baseDemo "/work" none
        = some baseDemo :=
  C7_control_file_asymmetry (fun _ => false) (fun _ => none) baseDemo
    "/work" "myctl.toml" (by decide) rfl rfl rfl

/-- C8: the command-line surface is program [control_file] [--dry-run]: the
empty argument list and the lone flag parse; one positional is accepted in
either order with the flag; an unknown flag or a second positional is a
usage error; the parsed positional is handed to the configuration loader
and selects the control file it uses (here: the explicit file is loaded
while without it the absent default leads to base-only loading). -/
theorem C8_cli_surface (p a cwd : String) (fs : String → Bool)
    (parseToml : String → Option Table) (base : Table)
    (hp1 : strStartsDash p = false) (hp2 : p ≠ "")
    (ha1 : strStartsDash a = true) (ha2 : a ≠ "--dry-run")
    (hfs : fs (posixStr (posixParse p)) = true)
    (hdef : fs (posixStr (posixJoin (posixParse cwd) (posixParse "control.toml"))) = false) :
    parseCli [] = CliParse.ok none false
    ∧ parseCli ["--dry-run"] = CliParse.ok none true
    ∧ parseCli [p] = CliParse.ok (some p) false
    ∧ parseCli [p, "--dry-run"] = CliParse.ok (some p) true
    ∧ parseCli ["--dry-run", p] = CliParse.ok (some p) true
    ∧ parseCli [a] = CliParse.error
    ∧ parseCli [p, p] = CliParse.error
    ∧ mainDrive [p] fs parseToml base cwd
        = some (loadEffectiveTable fs parseToml base cwd (some p), false)
    ∧ determineControlFile fs cwd (some p)
        = ControlFileDecision.load (posixStr (posixParse p))
    ∧ determineControlFile fs cwd none = ControlFileDecision.baseOnly := by
  have hpd : p ≠ "--dry-run" := by
    intro he
    rw [he] at hp1
    exact absurd hp1 (by decide)
  have hP1 : parseCli [p] = CliParse.ok (some p) false := by
    unfold parseCli parseCliGo
    simp [hpd, hp1, parseCliGo]
  refine ⟨rfl, by decide, hP1, ?_, ?_, ?_, ?_, ?_, ?_, ?_⟩
  · unfold parseCli parseCliGo
    simp [hpd, hp1, parseCliGo]
  · unfold parseCli parseCliGo
    simp [hpd, hp1, parseCliGo]
  · unfold parseCli parseCliGo
    simp [ha2, ha1]
  · unfold parseCli parseCliGo
    simp [hpd, hp1, parseCliGo]
  · unfold mainDrive
    rw [hP1]
  · unfold determineControlFile
    simp [hp2, hfs]
  · unfold determineControlFile defaultCtl
    simp [hdef]

/-- Witness for C8 with a concrete positional, an unknown flag, and a
filesystem containing only the explicit control file. -/
theorem C8_cli_surface_witness :
    parseCli [] = CliParse.ok none false
    ∧ parseCli ["--dry-run"] = CliParse.ok none true
    ∧ parseCli ["myctl.toml"] = CliParse.ok (some "myctl.toml") false
    ∧ parseCli ["myctl.toml", "--dry-run"] = CliParse.ok (some "myctl.toml") true
    ∧ parseCli ["--dry-run", "myctl.toml"] = CliParse.ok (some "myctl.toml") true
    ∧ parseCli ["--verbose"] = CliParse.error
    ∧ parseCli ["myctl.toml", "myctl.toml"] = CliParse.error
    ∧ mainDrive ["myctl.toml"] (fun s => s == "myctl.toml") (fun _ => some controlDemo)
        baseDemo "/work"
        = some (loadEffectiveTable (fun s => s == "myctl.toml")
            (fun _ => some controlDemo) baseDemo "/work" (some "myctl.toml"), false)
    ∧ determineControlFile (fun s => s == "myctl.toml") "/work" (some "myctl.toml")
        = ControlFileDecision.load (posixStr (posixParse "myctl.toml"))
    ∧ determineControlFile (fun s => s == "myctl.toml") "/work" none
        = ControlFileDecision.baseOnly :=
  C8_cli_surface "myctl.toml" "--verbose" "/work" (fun s => s == "myctl.toml")
    (fun _ => some controlDemo) baseDemo
    (by decide) (by decide) (by decide) (by decide) (by decide) (by decide)

theorem colon_string_ne_dry_run (rm sp : String) : rm ++ ":" ++ sp ≠ "--dry-run" := by
  intro h
  have hd := congrArg String.data h
  rw [string_data_append, string_data_append] at hd
  have hmem : ':' ∈ rm.data ++ (":" : String).data ++ sp.data := by
    have hc : (":" : String).data = [':'] := rfl
    rw [hc]
    simp
  rw [hd] at hmem
  have hdr : ("--dry-run" : String).data = ['-', '-', 'd', 'r', 'y', '-', 'r', 'u', 'n'] := rfl
  rw [hdr] at hmem
  simp at hmem

theorem log_file_arg_ne_dry_run (L : String) : "--log-file=" ++ L ≠ "--dry-run" := by
  intro h
  have hd := congrArg String.data h
  rw [string_data_append] at hd
  have hlf : ("--log-file=" : String).data
      = ['-', '-', 'l', 'o', 'g', '-', 'f', 'i', 'l', 'e', '='] := rfl
  have hdr : ("--dry-run" : String).data = ['-', '-', 'd', 'r', 'y', '-', 'r', 'u', 'n'] := rfl
  rw [hlf, hdr] at hd
  simp at hd

/-- C2 counterexample: with dry-run disabled but rclone_flags configured to
contain --dry-run (as the test fixture in src/modules/rclone_exec.py lines
193-204 itself does), the argument list does contain --dry-run, against the
claim that it appears for no configuration when the flag is off. -/
theorem C2_counterexample :
    "--dry-run" ∈ buildCommandSpec ["-v", "--dry-run"] false
      "logs/x.log" "gdrive" "src_folder" "backup" := by
  decide

/-- C2 amended: enabling dry-run appends --dry-run to the argument list and
inserts _DRYRUN immediately before the .log extension of the log file name;
with dry-run disabled the log name is exactly basename_timestamp.log, and
--dry-run occurs in the argument list only if the configured rclone_flags
themselves contain it. -/
theorem C2_amended_dry_run (flags : List String) (b t L rm sp dp : String)
    (hf : "--dry-run" ∉ flags) :
    "--dry-run" ∈ buildCommandSpec flags true L rm sp dp
    ∧ logFileNameSpec b t true = b ++ "_" ++ t ++ "_DRYRUN" ++ ".log"
    ∧ "--dry-run" ∉ buildCommandSpec flags false L rm sp dp
    ∧ logFileNameSpec b t false = b ++ "_" ++ t ++ ".log" := by
  refine ⟨?_, rfl, ?_, ?_⟩
  · unfold buildCommandSpec
    simp
  · intro hmem
    unfold buildCommandSpec at hmem
    simp only [List.mem_append, List.mem_cons, List.not_mem_nil, or_false, false_or,
      Bool.false_eq_true, if_false] at hmem
    rcases hmem with ((h | h) | h) | h | h | h
    · exact absurd h (by decide)
    · exact absurd h (by decide)
    · exact hf h
    · exact log_file_arg_ne_dry_run L h.symm
    · exact colon_string_ne_dry_run rm sp h.symm
    · exact colon_string_ne_dry_run rm dp h.symm
  · unfold logFileNameSpec
    rw [if_neg (by simp)]
    rw [string_append_empty]

/-- Witness for C2 amended on concrete flags that do not contain the
dry-run flag themselves. -/
theorem C2_amended_dry_run_witness :
    "--dry-run" ∈ buildCommandSpec ["-v", "--transfers", "4"] true
        "logs/x.log" "gdrive" "src_folder" "backup"
    ∧ logFileNameSpec "rclone_copy_chunk" "20250101_120000" true
        = "rclone_copy_chunk" ++ "_" ++ "20250101_120000" ++ "_DRYRUN" ++ ".log"
    ∧ "--dry-run" ∉ buildCommandSpec ["-v", "--transfers", "4"] false
        "logs/x.log" "gdrive" "src_folder" "backup"
    ∧ logFileNameSpec "rclone_copy_chunk" "20250101_120000" false
        = "rclone_copy_chunk" ++ "_" ++ "20250101_120000" ++ ".log" :=
  C2_amended_dry_run ["-v", "--transfers", "4"] "rclone_copy_chunk"
    "20250101_120000" "logs/x.log" "gdrive" "src_folder" "backup" (by decide)
